import Mathlib

/-!
Shallow embedding of `tf2_ros/buffer_interface.py` (repository geometry2).

Modelling choices:
* A Python object of a stamped transformable type is an `Obj`: `oid` is the
  object identity (`id(obj)` in Python), `ty` the identity of its concrete
  class (`type(obj)`), `mro` the list of class identities the object is an
  instance of (so `isinstance(obj, T)` is `T ∈ obj.mro`; Python guarantees
  `ty ∈ mro`), and `frame_id`/`stamp` model `obj.header`.
* Python exceptions are the error side of `Except PyError`: `TypeException`
  (which carries `errstr`) is distinguished from every other exception,
  because `convert` catches exactly `TypeException`.
* The class-level dictionaries `TransformRegistration.__type_map`,
  `ConvertRegistration.__to_msg_map`, `__from_msg_map` and `__convert_map`
  are process-wide shared state; they are made explicit as a `Registries`
  value threaded through the operations.  Registration instances hold no
  state of their own (only an instance identity `iid`), exactly as in the
  source, where every map is a class attribute.  `dict[k] = v` is modelled
  by prepending `(k, v)`, and lookup takes the most recent binding, which
  is observationally the same overwrite semantics.
* Registered callbacks may themselves raise, so they return `Except`.
* `deepcopy` produces a structurally equal object under a fresh identity;
  the fresh identity is passed explicitly to the functions that copy.
* `Stamped` assigns `obj.header` in place and returns `obj` itself; it is
  embedded as a function returning the pair (state of the argument after
  the call, returned value).
-/

namespace Tf2

/-- Python exceptions: `TypeException` (with its `errstr`) versus any other
exception; `convert` catches exactly `TypeException`. -/
inductive PyError where
  | typeException (errstr : String)
  | other (msg : String)
deriving Repr, DecidableEq

/-- A stamped transformable Python object.  `oid` is the object identity,
`ty` the identity of `type(obj)`, `mro` the class identities the object is
an instance of, `frame_id` and `stamp` model `obj.header`, `payload` the
rest of the object's data. -/
structure Obj where
  oid : Nat
  ty : Nat
  mro : List Nat
  frame_id : String
  stamp : Nat
  payload : Nat
deriving Repr, DecidableEq

/-- A `geometry_msgs.msg.TransformStamped` value as produced by the buffer. -/
structure TransformStamped where
  target_frame : String
  source_frame : String
  stamp : Nat
  data : Nat
deriving Repr, DecidableEq

/-- Callback type stored in `TransformRegistration.__type_map`. -/
abbrev TransformFn := Obj → TransformStamped → Except PyError Obj

/-- Callback type stored in the three `ConvertRegistration` maps. -/
abbrev ConvertFn := Obj → Except PyError Obj

/-- `isinstance(a, b_type)`: membership of the class identity in the
object's method resolution order. -/
def isinstance (a : Obj) (b_type : Nat) : Bool :=
  decide (b_type ∈ a.mro)

/-- `copy.deepcopy`: a structurally identical object under a fresh object
identity, sharing no mutable state with the original. -/
def deepcopy (fresh : Nat) (a : Obj) : Obj :=
  { a with oid := fresh }

/-- Association-list lookup used to model Python `dict` access: the most
recent binding of the exact key, `none` when the key is absent. -/
def lookupKey {α β : Type} [DecidableEq α] : List (α × β) → α → Option β
  | [], _ => none
  | (k, v) :: rest, key => if k = key then some v else lookupKey rest key

/-- The message of `TypeException`, as formatted in the source:
`'Type %s is not loaded or supported' % str(key)`. -/
def errMsg (key : String) : String :=
  "Type " ++ key ++ " is not loaded or supported"

/-- The process-wide registry state: the four class-level dictionaries of
`TransformRegistration` and `ConvertRegistration`. -/
structure Registries where
  type_map : List (Nat × TransformFn)
  to_msg_map : List (Nat × ConvertFn)
  from_msg_map : List (Nat × ConvertFn)
  convert_map : List ((Nat × Nat) × ConvertFn)

/-- A `TransformRegistration()` instance.  It carries only its own object
identity: all registry data lives in the class-level map. -/
structure TransformRegistration where
  iid : Nat

/-- `TransformRegistration.add`: `__type_map[key] = callback`.  The instance
is ignored because the map is a class attribute. -/
def TransformRegistration.add (_self : TransformRegistration) (s : Registries)
    (key : Nat) (callback : TransformFn) : Registries :=
  { s with type_map := (key, callback) :: s.type_map }

/-- `TransformRegistration.get`: raises `TypeException` if the key is not in
`__type_map`, else returns the stored callback. -/
def TransformRegistration.get (_self : TransformRegistration) (s : Registries)
    (key : Nat) : Except PyError TransformFn :=
  match lookupKey s.type_map key with
  | none => .error (.typeException (errMsg (toString key)))
  | some f => .ok f

/-- A `ConvertRegistration()` instance; like `TransformRegistration`, all
data lives in class-level maps. -/
structure ConvertRegistration where
  iid : Nat

/-- `ConvertRegistration.add_from_msg`: `__from_msg_map[key] = callback`. -/
def ConvertRegistration.add_from_msg (_self : ConvertRegistration)
    (s : Registries) (key : Nat) (callback : ConvertFn) : Registries :=
  { s with from_msg_map := (key, callback) :: s.from_msg_map }

/-- `ConvertRegistration.add_to_msg`: `__to_msg_map[key] = callback`. -/
def ConvertRegistration.add_to_msg (_self : ConvertRegistration)
    (s : Registries) (key : Nat) (callback : ConvertFn) : Registries :=
  { s with to_msg_map := (key, callback) :: s.to_msg_map }

/-- `ConvertRegistration.add_convert`: `__convert_map[(a, b)] = callback`. -/
def ConvertRegistration.add_convert (_self : ConvertRegistration)
    (s : Registries) (key : Nat × Nat) (callback : ConvertFn) : Registries :=
  { s with convert_map := (key, callback) :: s.convert_map }

/-- `ConvertRegistration.get_from_msg`: raises `TypeException` on a missing
key, else returns the stored callback. -/
def ConvertRegistration.get_from_msg (_self : ConvertRegistration)
    (s : Registries) (key : Nat) : Except PyError ConvertFn :=
  match lookupKey s.from_msg_map key with
  | none => .error (.typeException (errMsg (toString key)))
  | some f => .ok f

/-- `ConvertRegistration.get_to_msg`: raises `TypeException` on a missing
key, else returns the stored callback. -/
def ConvertRegistration.get_to_msg (_self : ConvertRegistration)
    (s : Registries) (key : Nat) : Except PyError ConvertFn :=
  match lookupKey s.to_msg_map key with
  | none => .error (.typeException (errMsg (toString key)))
  | some f => .ok f

/-- `ConvertRegistration.get_convert`: raises `TypeException` on a missing
pair key, else returns the stored callback. -/
def ConvertRegistration.get_convert (_self : ConvertRegistration)
    (s : Registries) (key : Nat × Nat) : Except PyError ConvertFn :=
  match lookupKey s.convert_map key with
  | none => .error (.typeException (errMsg (toString key)))
  | some f => .ok f

/-- `convert(a, b_type)`: construct a fresh `ConvertRegistration`, try the
direct converter for `(type(a), b_type)` — the `try` block encloses both the
lookup and the application `f(a)`, so a `TypeException` raised by either one
falls into the handler; there, return `deepcopy(a)` if `isinstance(a,
b_type)`, else bridge via `get_to_msg` / `get_from_msg`. -/
def convert (s : Registries) (fresh : Nat) (a : Obj) (b_type : Nat) :
    Except PyError Obj :=
  let c : ConvertRegistration := ⟨0⟩
  let attempt : Except PyError Obj :=
    match c.get_convert s (a.ty, b_type) with
    | .ok f => f a
    | .error e => .error e
  match attempt with
  | .ok r => .ok r
  | .error (.typeException _) =>
    if isinstance a b_type then
      .ok (deepcopy fresh a)
    else
      match c.get_to_msg s a.ty with
      | .error e => .error e
      | .ok f_to =>
        match c.get_from_msg s b_type with
        | .error e => .error e
        | .ok f_from =>
          match f_to a with
          | .error e => .error e
          | .ok m => f_from m
  | .error e => .error e

/-- `BufferInterface.transform(object_stamped, target_frame, timeout,
new_type)`: fetch the registered apply-transform callback for
`type(object_stamped)`, call the buffer's `lookup_transform` (modelled as an
explicit function argument, since the base class leaves it abstract), apply
the callback, and either return the result or `convert` it to `new_type`. -/
def BufferInterface.transform (s : Registries)
    (lookup_transform : String → String → Nat → Nat →
      Except PyError TransformStamped)
    (fresh : Nat) (object_stamped : Obj) (target_frame : String)
    (timeout : Nat) (new_type : Option Nat) : Except PyError Obj :=
  let registration : TransformRegistration := ⟨0⟩
  match registration.get s object_stamped.ty with
  | .error e => .error e
  | .ok do_transform =>
    match lookup_transform target_frame object_stamped.frame_id
        object_stamped.stamp timeout with
    | .error e => .error e
    | .ok tf =>
      match do_transform object_stamped tf with
      | .error e => .error e
      | .ok res =>
        match new_type with
        | none => .ok res
        | some t => convert s fresh res t

/-- `Stamped(obj, stamp, frame_id)`: executes `obj.header =
Header(frame_id=frame_id, stamp=stamp); return obj`.  The embedding returns
the pair (state of the argument `obj` after the call, returned value): the
header is assigned on the caller's object in place, and the very same object
is returned. -/
def Stamped (obj : Obj) (stamp : Nat) (frame_id : String) : Obj × Obj :=
  let mutated : Obj := { obj with frame_id := frame_id, stamp := stamp }
  (mutated, mutated)

/-! Concrete fixtures used by the witness theorems. -/

/-- A sample object of class identity 10, also an instance of class 20. -/
def sampleObj : Obj :=
  { oid := 1, ty := 10, mro := [10, 20], frame_id := "laser", stamp := 3,
    payload := 7 }

/-- The empty registry state. -/
def emptyRegs : Registries :=
  { type_map := [], to_msg_map := [], from_msg_map := [], convert_map := [] }

/-- An apply-transform callback: moves the object into the transform's
target frame. -/
def applyTfFn : TransformFn :=
  fun o tf => .ok { o with frame_id := tf.target_frame }

/-- A second apply-transform callback, distinguishable from `applyTfFn`. -/
def applyTfFn2 : TransformFn :=
  fun o _ => .ok { o with payload := o.payload + 1 }

/-- A stub buffer whose `lookup_transform` always succeeds. -/
def stubLookup : String → String → Nat → Nat →
    Except PyError TransformStamped :=
  fun tgt src t _ =>
    .ok { target_frame := tgt, source_frame := src, stamp := t, data := 0 }

/-- A direct converter producing a distinguishable sentinel result. -/
def sentinelFn : ConvertFn :=
  fun o => .ok { o with ty := 30, mro := [30], payload := 111 }

/-- A to-canonical converter: produces the canonical message form
(class identity 99). -/
def toMsgFn : ConvertFn :=
  fun o => .ok { o with ty := 99, mro := [99] }

/-- A from-canonical converter: produces an object of class identity 30
with the payload doubled, distinguishable from `sentinelFn`. -/
def fromMsgFn : ConvertFn :=
  fun o => .ok { o with ty := 30, mro := [30], payload := o.payload * 2 }

/-- A direct converter that itself raises `TypeException`. -/
def raisingFn : ConvertFn :=
  fun _ => .error (.typeException "raised by the registered converter")

/-- Registry state with a direct converter and both bridge converters for
the pair (10, 30). -/
def regsDirectAndBridge : Registries :=
  { type_map := [], to_msg_map := [(10, toMsgFn)],
    from_msg_map := [(30, fromMsgFn)],
    convert_map := [((10, 30), sentinelFn)] }

/-- Registry state with only the two bridge converters for (10, 30). -/
def regsBridgeOnly : Registries :=
  { type_map := [], to_msg_map := [(10, toMsgFn)],
    from_msg_map := [(30, fromMsgFn)], convert_map := [] }

/-- Registry state whose direct converter for (10, 30) raises
`TypeException`, with the bridge also registered. -/
def regsRaisingDirect : Registries :=
  { type_map := [], to_msg_map := [(10, toMsgFn)],
    from_msg_map := [(30, fromMsgFn)],
    convert_map := [((10, 30), raisingFn)] }

/-- Registry state with only an apply-transform callback for class 10. -/
def regsTransformOnly : Registries :=
  { type_map := [(10, applyTfFn)], to_msg_map := [], from_msg_map := [],
    convert_map := [] }

/-- Registry state with the apply-transform callback for class 10 and the
canonical bridge from class 10 to class 30. -/
def regsTransformAndBridge : Registries :=
  { type_map := [(10, applyTfFn)], to_msg_map := [(10, toMsgFn)],
    from_msg_map := [(30, fromMsgFn)], convert_map := [] }

/-- Registry state with only the to-canonical converter for class 10. -/
def regsToOnly : Registries :=
  { type_map := [], to_msg_map := [(10, toMsgFn)], from_msg_map := [],
    convert_map := [] }

/-- Registry state whose direct converter for (10, 20) raises
`TypeException`; class 20 is a superclass of `sampleObj`. -/
def regsRaisingDirect20 : Registries :=
  { type_map := [], to_msg_map := [], from_msg_map := [],
    convert_map := [((10, 20), raisingFn)] }

/-! Helper lemmas. -/

/-- If no entry of the association list carries exactly the key, the lookup
misses. -/
theorem lookupKey_eq_none {α β : Type} [DecidableEq α]
    (l : List (α × β)) (key : α) (h : ∀ e ∈ l, e.1 ≠ key) :
    lookupKey l key = none := by
  induction l with
  | nil => rfl
  | cons e rest ih =>
    obtain ⟨k, v⟩ := e
    have hk : k ≠ key := h (k, v) (List.mem_cons_self _ _)
    simp only [lookupKey, if_neg hk]
    exact ih (fun e he => h e (List.mem_cons_of_mem _ he))

/-! Claim theorems. -/

/-- C2: whenever a direct converter is registered for
`(type(source), target_type)` and it returns a result, `convert` returns
exactly that result; no hypothesis on the to-canonical or from-canonical
tables is needed, so this holds even when both bridge registrations exist. -/
theorem convert_direct_preferred (s : Registries) (fresh : Nat) (a : Obj)
    (b : Nat) (f : ConvertFn) (r : Obj)
    (hf : lookupKey s.convert_map (a.ty, b) = some f)
    (hr : f a = .ok r) :
    convert s fresh a b = .ok r := by
  simp [convert, ConvertRegistration.get_convert, hf, hr]

/-- Witness for C2: with both the direct sentinel converter and the
canonical bridge registered for (10, 30), `convert` returns the sentinel
(payload 111), not the bridge result (payload 14). -/
theorem convert_direct_preferred_witness :
    convert regsDirectAndBridge 99 sampleObj 30 =
      .ok { sampleObj with ty := 30, mro := [30], payload := 111 } :=
  convert_direct_preferred regsDirectAndBridge 99 sampleObj 30 sentinelFn
    { sampleObj with ty := 30, mro := [30], payload := 111 } rfl rfl

/-- C3: with no direct converter for the pair and the source not an
instance of the target type, `convert` bridges through the canonical form
when both registrations exist, and raises `TypeException` when either the
to-canonical or the from-canonical registration is absent. -/
theorem convert_bridge_or_error (s : Registries) (fresh : Nat) (a : Obj)
    (b : Nat)
    (hd : lookupKey s.convert_map (a.ty, b) = none)
    (hi : isinstance a b = false) :
    (∀ f_to f_from m, lookupKey s.to_msg_map a.ty = some f_to →
        lookupKey s.from_msg_map b = some f_from → f_to a = .ok m →
        convert s fresh a b = f_from m) ∧
    (lookupKey s.to_msg_map a.ty = none →
        convert s fresh a b =
          .error (.typeException (errMsg (toString a.ty)))) ∧
    (∀ f_to, lookupKey s.to_msg_map a.ty = some f_to →
        lookupKey s.from_msg_map b = none →
        convert s fresh a b =
          .error (.typeException (errMsg (toString b)))) := by
  refine ⟨?_, ?_, ?_⟩
  · intro f_to f_from m hto hfrom hm
    simp [convert, ConvertRegistration.get_convert,
      ConvertRegistration.get_to_msg, ConvertRegistration.get_from_msg,
      hd, hi, hto, hfrom, hm]
  · intro hto
    simp [convert, ConvertRegistration.get_convert,
      ConvertRegistration.get_to_msg, hd, hi, hto]
  · intro f_to hto hfrom
    simp [convert, ConvertRegistration.get_convert,
      ConvertRegistration.get_to_msg, ConvertRegistration.get_from_msg,
      hd, hi, hto, hfrom]

/-- Witness for C3: the bridge doubles the payload (7 to 14); with the
to-canonical entry missing the error names class 10; with only the
to-canonical entry the error names class 30. -/
theorem convert_bridge_or_error_witness :
    convert regsBridgeOnly 99 sampleObj 30 =
      .ok { sampleObj with ty := 30, mro := [30], payload := 14 } ∧
    convert emptyRegs 99 sampleObj 30 =
      .error (.typeException (errMsg (toString sampleObj.ty))) ∧
    convert regsToOnly 99 sampleObj 30 =
      .error (.typeException (errMsg (toString (30 : Nat)))) := by
  refine ⟨?_, ?_, ?_⟩
  · exact (convert_bridge_or_error regsBridgeOnly 99 sampleObj 30 rfl
      rfl).1 toMsgFn fromMsgFn { sampleObj with ty := 99, mro := [99] }
      rfl rfl rfl
  · exact (convert_bridge_or_error emptyRegs 99 sampleObj 30 rfl rfl).2.1 rfl
  · exact (convert_bridge_or_error regsToOnly 99 sampleObj 30 rfl rfl).2.2
      toMsgFn rfl rfl

/-- C4: with no direct converter for `(type(x), T)` and `x` an instance of
`T`, `convert` returns `deepcopy(x)`: an object under a fresh identity
(hence not the input object) whose content — class, mro, header and
payload — equals the input's. -/
theorem convert_identity_deepcopy (s : Registries) (fresh : Nat) (a : Obj)
    (T : Nat)
    (hd : lookupKey s.convert_map (a.ty, T) = none)
    (hi : isinstance a T = true)
    (hfresh : fresh ≠ a.oid) :
    convert s fresh a T = .ok (deepcopy fresh a) ∧
    deepcopy fresh a ≠ a ∧
    (deepcopy fresh a).ty = a.ty ∧ (deepcopy fresh a).mro = a.mro ∧
    (deepcopy fresh a).frame_id = a.frame_id ∧
    (deepcopy fresh a).stamp = a.stamp ∧
    (deepcopy fresh a).payload = a.payload := by
  refine ⟨?_, ?_, rfl, rfl, rfl, rfl, rfl⟩
  · simp [convert, ConvertRegistration.get_convert, hd, hi]
  · intro hEq
    exact hfresh (by simpa [deepcopy] using congrArg Obj.oid hEq)

/-- Witness for C4: the identity conversion of `sampleObj` to its own class
10 yields a deep copy distinct from the input. -/
theorem convert_identity_deepcopy_witness :
    convert emptyRegs 99 sampleObj 10 = .ok (deepcopy 99 sampleObj) ∧
    deepcopy 99 sampleObj ≠ sampleObj :=
  ⟨(convert_identity_deepcopy emptyRegs 99 sampleObj 10 rfl rfl
      (by decide)).1,
   (convert_identity_deepcopy emptyRegs 99 sampleObj 10 rfl rfl
      (by decide)).2.1⟩

/-- C9: when the registered direct converter itself raises `TypeException`,
`convert` does not propagate that exception: the handler encloses the
application too, so it falls back to the identity deep copy when
`isinstance` holds, and otherwise to the canonical bridge lookups. -/
theorem convert_catches_converter_typeexception (s : Registries)
    (fresh : Nat) (a : Obj) (b : Nat) (f : ConvertFn) (e : String)
    (hf : lookupKey s.convert_map (a.ty, b) = some f)
    (he : f a = .error (.typeException e)) :
    (isinstance a b = true → convert s fresh a b = .ok (deepcopy fresh a)) ∧
    (isinstance a b = false →
      convert s fresh a b =
        match lookupKey s.to_msg_map a.ty with
        | none => .error (.typeException (errMsg (toString a.ty)))
        | some f_to =>
          match lookupKey s.from_msg_map b with
          | none => .error (.typeException (errMsg (toString b)))
          | some f_from =>
            match f_to a with
            | .error e2 => .error e2
            | .ok m => f_from m) := by
  constructor
  · intro hi
    simp [convert, ConvertRegistration.get_convert, hf, he, hi]
  · intro hi
    cases hto : lookupKey s.to_msg_map a.ty with
    | none =>
      simp [convert, ConvertRegistration.get_convert,
        ConvertRegistration.get_to_msg, hf, he, hi, hto]
    | some f_to =>
      cases hfrom : lookupKey s.from_msg_map b with
      | none =>
        simp [convert, ConvertRegistration.get_convert,
          ConvertRegistration.get_to_msg, ConvertRegistration.get_from_msg,
          hf, he, hi, hto, hfrom]
      | some f_from =>
        cases hm : f_to a with
        | error e2 =>
          simp [convert, ConvertRegistration.get_convert,
            ConvertRegistration.get_to_msg,
            ConvertRegistration.get_from_msg, hf, he, hi, hto, hfrom, hm]
        | ok m =>
          simp [convert, ConvertRegistration.get_convert,
            ConvertRegistration.get_to_msg,
            ConvertRegistration.get_from_msg, hf, he, hi, hto, hfrom, hm]

/-- Witness for C9: a raising direct converter for (10, 30) is silently
bypassed in favour of the canonical bridge (payload 14), and a raising
direct converter for (10, 20) is silently bypassed in favour of the
identity deep copy. -/
theorem convert_catches_converter_typeexception_witness :
    convert regsRaisingDirect 99 sampleObj 30 =
      .ok { sampleObj with ty := 30, mro := [30], payload := 14 } ∧
    convert regsRaisingDirect20 99 sampleObj 20 =
      .ok (deepcopy 99 sampleObj) := by
  constructor
  · have h := (convert_catches_converter_typeexception regsRaisingDirect 99
      sampleObj 30 raisingFn "raised by the registered converter" rfl
      rfl).2 rfl
    exact h.trans rfl
  · exact (convert_catches_converter_typeexception regsRaisingDirect20 99
      sampleObj 20 raisingFn "raised by the registered converter" rfl
      rfl).1 rfl

/-- C10: the identity step of `convert` uses `isinstance`, so a proper
subtype of the target class is deep-copied even though no registry table
holds its key: no to-canonical registration is required. -/
theorem convert_subtype_instance_copy (s : Registries) (fresh : Nat)
    (a : Obj) (T : Nat)
    (hd : lookupKey s.convert_map (a.ty, T) = none)
    (hsub : T ∈ a.mro) (hne : a.ty ≠ T) :
    convert s fresh a T = .ok (deepcopy fresh a) := by
  have hi : isinstance a T = true := by simp [isinstance, hsub]
  simp [convert, ConvertRegistration.get_convert, hd, hi]

/-- Witness for C10: `sampleObj` has concrete class 10 and superclass 20;
converting it to class 20 over the empty registries returns the deep copy,
with no registration of any kind present. -/
theorem convert_subtype_instance_copy_witness :
    convert emptyRegs 99 sampleObj 20 = .ok (deepcopy 99 sampleObj) :=
  convert_subtype_instance_copy emptyRegs 99 sampleObj 20 rfl (by decide)
    (by decide)

/-- C1: `transform` raises the unsupported-type `TypeException` when
`type(object)` has no apply-transform registration, and the outcome is then
the same for every buffer — the buffer is never consulted; a buffer failure
is propagated unchanged; otherwise the result is the registered callback
applied to the object and to `lookup_transform(target_frame,
object.header.frame_id, object.header.stamp, timeout)`, returned as-is when
`new_type` is `None` and passed through `convert` when it is given. -/
theorem transform_spec (s : Registries) (fresh : Nat) (o : Obj)
    (tgt : String) (tmo : Nat) (nt : Option Nat) :
    (lookupKey s.type_map o.ty = none →
      ∀ lookup_transform,
        BufferInterface.transform s lookup_transform fresh o tgt tmo nt =
          .error (.typeException (errMsg (toString o.ty)))) ∧
    (∀ lookup_transform f e, lookupKey s.type_map o.ty = some f →
        lookup_transform tgt o.frame_id o.stamp tmo = .error e →
        BufferInterface.transform s lookup_transform fresh o tgt tmo nt =
          .error e) ∧
    (∀ lookup_transform f tf r, lookupKey s.type_map o.ty = some f →
        lookup_transform tgt o.frame_id o.stamp tmo = .ok tf →
        f o tf = .ok r →
        BufferInterface.transform s lookup_transform fresh o tgt tmo nt =
          match nt with
          | none => .ok r
          | some t => convert s fresh r t) := by
  refine ⟨?_, ?_, ?_⟩
  · intro hget lookup_transform
    simp [BufferInterface.transform, TransformRegistration.get, hget]
  · intro lookup_transform f e hget hlk
    simp [BufferInterface.transform, TransformRegistration.get, hget, hlk]
  · intro lookup_transform f tf r hget hlk hap
    cases nt with
    | none =>
      simp [BufferInterface.transform, TransformRegistration.get, hget,
        hlk, hap]
    | some t =>
      simp [BufferInterface.transform, TransformRegistration.get, hget,
        hlk, hap]

/-- Witness for C1: with no registration for class 10 the call fails with
the unsupported-type error under the stub buffer; with `applyTfFn`
registered and the stub buffer, `transform` moves `sampleObj` into frame
"base" when `new_type` is `None`, and converts the moved object to class 30
through the registered bridge when `new_type` is 30. -/
theorem transform_spec_witness :
    BufferInterface.transform emptyRegs stubLookup 99 sampleObj "base" 0
        none =
      .error (.typeException (errMsg (toString sampleObj.ty))) ∧
    BufferInterface.transform regsTransformOnly stubLookup 99 sampleObj
        "base" 0 none =
      .ok { sampleObj with frame_id := "base" } ∧
    BufferInterface.transform regsTransformAndBridge stubLookup 99 sampleObj
        "base" 0 (some 30) =
      .ok { sampleObj with
            ty := 30, mro := [30], frame_id := "base", payload := 14 } := by
  refine ⟨?_, ?_, ?_⟩
  · exact (transform_spec emptyRegs 99 sampleObj "base" 0 none).1 rfl
      stubLookup
  · exact ((transform_spec regsTransformOnly 99 sampleObj "base" 0
      none).2.2 stubLookup applyTfFn
      { target_frame := "base", source_frame := "laser", stamp := 3,
        data := 0 }
      { sampleObj with frame_id := "base" } rfl rfl rfl).trans rfl
  · exact ((transform_spec regsTransformAndBridge 99 sampleObj "base" 0
      (some 30)).2.2 stubLookup applyTfFn
      { target_frame := "base", source_frame := "laser", stamp := 3,
        data := 0 }
      { sampleObj with frame_id := "base" } rfl rfl rfl).trans rfl

/-- C5: every getter of the four tables raises `TypeException` with the
message naming the offending key whenever no entry carries exactly that
key, however the other tables and other keys are populated — exact key
identity, no inheritance fallback, never a default. -/
theorem getters_raise_on_unregistered (s : Registries)
    (tr : TransformRegistration) (cr : ConvertRegistration) (k : Nat)
    (p : Nat × Nat)
    (h1 : ∀ e ∈ s.type_map, e.1 ≠ k)
    (h2 : ∀ e ∈ s.to_msg_map, e.1 ≠ k)
    (h3 : ∀ e ∈ s.from_msg_map, e.1 ≠ k)
    (h4 : ∀ e ∈ s.convert_map, e.1 ≠ p) :
    tr.get s k = .error (.typeException (errMsg (toString k))) ∧
    cr.get_to_msg s k = .error (.typeException (errMsg (toString k))) ∧
    cr.get_from_msg s k = .error (.typeException (errMsg (toString k))) ∧
    cr.get_convert s p = .error (.typeException (errMsg (toString p))) := by
  refine ⟨?_, ?_, ?_, ?_⟩
  · simp [TransformRegistration.get, lookupKey_eq_none _ _ h1]
  · simp [ConvertRegistration.get_to_msg, lookupKey_eq_none _ _ h2]
  · simp [ConvertRegistration.get_from_msg, lookupKey_eq_none _ _ h3]
  · simp [ConvertRegistration.get_convert, lookupKey_eq_none _ _ h4]

/-- Witness for C5: all four getters at unregistered keys 77 and (77, 78)
raise the error naming the key, even though the state holds entries under
other keys (10, 30 and (10, 30)). -/
theorem getters_raise_on_unregistered_witness :
    TransformRegistration.get ⟨1⟩ regsDirectAndBridge 77 =
      .error (.typeException (errMsg (toString (77 : Nat)))) ∧
    ConvertRegistration.get_to_msg ⟨2⟩ regsDirectAndBridge 77 =
      .error (.typeException (errMsg (toString (77 : Nat)))) ∧
    ConvertRegistration.get_from_msg ⟨2⟩ regsDirectAndBridge 77 =
      .error (.typeException (errMsg (toString (77 : Nat)))) ∧
    ConvertRegistration.get_convert ⟨2⟩ regsDirectAndBridge (77, 78) =
      .error (.typeException (errMsg (toString ((77, 78) : Nat × Nat)))) := by
  refine getters_raise_on_unregistered regsDirectAndBridge ⟨1⟩ ⟨2⟩ 77
    (77, 78) ?_ ?_ ?_ ?_
  · intro e he; simp [regsDirectAndBridge] at he
  · intro e he; simp [regsDirectAndBridge] at he; subst he; decide
  · intro e he; simp [regsDirectAndBridge] at he; subst he; decide
  · intro e he; simp [regsDirectAndBridge] at he; subst he; decide

/-- C6: for each of the four tables, registration is total (`add` always
returns a state), last-write-wins — after two registrations under the same
key the getter returns the second callback — and additive: an entry
registered before the lookup under a different key is still found
afterwards. -/
theorem registration_lww_additive (tr : TransformRegistration)
    (cr : ConvertRegistration) :
    (∀ s k f g, tr.get (tr.add (tr.add s k f) k g) k = .ok g) ∧
    (∀ s k k2 f h, k2 ≠ k → tr.get s k2 = .ok h →
        tr.get (tr.add s k f) k2 = .ok h) ∧
    (∀ s k f g, cr.get_to_msg
        (cr.add_to_msg (cr.add_to_msg s k f) k g) k = .ok g) ∧
    (∀ s k k2 f h, k2 ≠ k → cr.get_to_msg s k2 = .ok h →
        cr.get_to_msg (cr.add_to_msg s k f) k2 = .ok h) ∧
    (∀ s k f g, cr.get_from_msg
        (cr.add_from_msg (cr.add_from_msg s k f) k g) k = .ok g) ∧
    (∀ s k k2 f h, k2 ≠ k → cr.get_from_msg s k2 = .ok h →
        cr.get_from_msg (cr.add_from_msg s k f) k2 = .ok h) ∧
    (∀ s p f g, cr.get_convert
        (cr.add_convert (cr.add_convert s p f) p g) p = .ok g) ∧
    (∀ s p p2 f h, p2 ≠ p → cr.get_convert s p2 = .ok h →
        cr.get_convert (cr.add_convert s p f) p2 = .ok h) := by
  refine ⟨?_, ?_, ?_, ?_, ?_, ?_, ?_, ?_⟩
  · intro s k f g
    simp [TransformRegistration.get, TransformRegistration.add, lookupKey]
  · intro s k k2 f h hne hget
    simp only [TransformRegistration.get, TransformRegistration.add,
      lookupKey] at hget ⊢
    rw [if_neg (fun hc => hne hc.symm)]
    exact hget
  · intro s k f g
    simp [ConvertRegistration.get_to_msg, ConvertRegistration.add_to_msg,
      lookupKey]
  · intro s k k2 f h hne hget
    simp only [ConvertRegistration.get_to_msg,
      ConvertRegistration.add_to_msg, lookupKey] at hget ⊢
    rw [if_neg (fun hc => hne hc.symm)]
    exact hget
  · intro s k f g
    simp [ConvertRegistration.get_from_msg,
      ConvertRegistration.add_from_msg, lookupKey]
  · intro s k k2 f h hne hget
    simp only [ConvertRegistration.get_from_msg,
      ConvertRegistration.add_from_msg, lookupKey] at hget ⊢
    rw [if_neg (fun hc => hne hc.symm)]
    exact hget
  · intro s p f g
    simp [ConvertRegistration.get_convert, ConvertRegistration.add_convert,
      lookupKey]
  · intro s p p2 f h hne hget
    simp only [ConvertRegistration.get_convert,
      ConvertRegistration.add_convert, lookupKey] at hget ⊢
    rw [if_neg (fun hc => hne hc.symm)]
    exact hget

/-- Witness for C6: registering `applyTfFn` then `applyTfFn2` under class
10 makes the getter return `applyTfFn2`; a later registration under class
11 leaves the earlier class-10 entry findable; the same overwrite holds for
the direct-convert table under the pair (10, 30). -/
theorem registration_lww_additive_witness :
    TransformRegistration.get ⟨0⟩ (TransformRegistration.add ⟨0⟩
      (TransformRegistration.add ⟨0⟩ emptyRegs 10 applyTfFn) 10 applyTfFn2)
      10 = .ok applyTfFn2 ∧
    TransformRegistration.get ⟨0⟩ (TransformRegistration.add ⟨0⟩
      regsTransformOnly 11 applyTfFn2) 10 = .ok applyTfFn ∧
    ConvertRegistration.get_convert ⟨0⟩ (ConvertRegistration.add_convert ⟨0⟩
      (ConvertRegistration.add_convert ⟨0⟩ emptyRegs (10, 30) sentinelFn)
      (10, 30) raisingFn) (10, 30) = .ok raisingFn := by
  refine ⟨?_, ?_, ?_⟩
  · exact (registration_lww_additive ⟨0⟩ ⟨0⟩).1 emptyRegs 10 applyTfFn
      applyTfFn2
  · exact (registration_lww_additive ⟨0⟩ ⟨0⟩).2.1 regsTransformOnly 11 10
      applyTfFn2 applyTfFn (by decide) rfl
  · exact (registration_lww_additive ⟨0⟩ ⟨0⟩).2.2.2.2.2.2.1 emptyRegs
      (10, 30) sentinelFn raisingFn

/-- C7: the registry maps are class-level, hence process-wide: a
registration made through any `TransformRegistration` or
`ConvertRegistration` instance is observed through every other instance,
and through the fresh `ConvertRegistration` that `convert` constructs
internally. -/
theorem registries_process_wide (tr1 tr2 : TransformRegistration)
    (cr1 cr2 : ConvertRegistration) :
    (∀ s k f, tr2.get (tr1.add s k f) k = .ok f) ∧
    (∀ s k f, cr2.get_to_msg (cr1.add_to_msg s k f) k = .ok f) ∧
    (∀ s k f, cr2.get_from_msg (cr1.add_from_msg s k f) k = .ok f) ∧
    (∀ s p f, cr2.get_convert (cr1.add_convert s p f) p = .ok f) ∧
    (∀ s fresh a b f r, f a = .ok r →
        convert (cr1.add_convert s (a.ty, b) f) fresh a b = .ok r) := by
  refine ⟨?_, ?_, ?_, ?_, ?_⟩
  · intro s k f
    simp [TransformRegistration.get, TransformRegistration.add, lookupKey]
  · intro s k f
    simp [ConvertRegistration.get_to_msg, ConvertRegistration.add_to_msg,
      lookupKey]
  · intro s k f
    simp [ConvertRegistration.get_from_msg,
      ConvertRegistration.add_from_msg, lookupKey]
  · intro s p f
    simp [ConvertRegistration.get_convert, ConvertRegistration.add_convert,
      lookupKey]
  · intro s fresh a b f r hr
    simp [convert, ConvertRegistration.get_convert,
      ConvertRegistration.add_convert, lookupKey, hr]

/-- Witness for C7: a registration through the instance with identity 1 is
seen by the getter called through the distinct instance with identity 2,
and a direct converter registered through the instance with identity 5 is
used by `convert`, which builds its own fresh instance internally. -/
theorem registries_process_wide_witness :
    TransformRegistration.get ⟨2⟩ (TransformRegistration.add ⟨1⟩ emptyRegs
      10 applyTfFn) 10 = .ok applyTfFn ∧
    convert (ConvertRegistration.add_convert ⟨5⟩ emptyRegs (10, 30)
      sentinelFn) 99 sampleObj 30 =
      .ok { sampleObj with ty := 30, mro := [30], payload := 111 } := by
  refine ⟨?_, ?_⟩
  · exact (registries_process_wide ⟨1⟩ ⟨2⟩ ⟨3⟩ ⟨4⟩).1 emptyRegs 10 applyTfFn
  · exact (registries_process_wide ⟨1⟩ ⟨2⟩ ⟨5⟩ ⟨4⟩).2.2.2.2 emptyRegs 99
      sampleObj 30 sentinelFn
      { sampleObj with ty := 30, mro := [30], payload := 111 } rfl

/-- C8 counterexample: `Stamped` is not free of side effects — at the
concrete input `sampleObj` the state of the argument after the call differs
from its state before (its header was assigned in place), and the returned
value is the very same object as the input (same object identity), not a
fresh one. -/
theorem Stamped_mutates_input :
    (Stamped sampleObj 5 "map").1 ≠ sampleObj ∧
    (Stamped sampleObj 5 "map").2.oid = sampleObj.oid := by
  decide

/-- C8 (amended): `Stamped(payload, time, frame_id)` attaches the header
`(frame_id, time)` by assigning it on the input object in place and returns
that same object: the result's header is `(frame_id, time)`, every other
field of the payload is unchanged, no validation is performed, and the
returned value aliases the mutated input (same identity) rather than being
an unmutated input plus a fresh result. -/
theorem Stamped_spec_amended (o : Obj) (t : Nat) (fr : String) :
    (Stamped o t fr).2.frame_id = fr ∧ (Stamped o t fr).2.stamp = t ∧
    (Stamped o t fr).2.oid = o.oid ∧ (Stamped o t fr).2.ty = o.ty ∧
    (Stamped o t fr).2.mro = o.mro ∧
    (Stamped o t fr).2.payload = o.payload ∧
    (Stamped o t fr).1 = (Stamped o t fr).2 :=
  ⟨rfl, rfl, rfl, rfl, rfl, rfl, rfl⟩

end Tf2
